import Mathlib

/-!
Verification development for the tsrouter repository (Go).

The claims under scrutiny concern the auth-key provisioning workflow:
`GetAccessToken` (oauth client construction) and `generateAuthKey`
(the single POST to the key-creation endpoint), from `main.go` and the
oauth file.  External collaborators (the HTTP transport, `json.Marshal`
and `json.Unmarshal` from the Go standard library, `io.ReadAll`,
`time.Now`, the logrus logger) are modelled at the interface level:
the HTTP exchange becomes an explicit `DoResult` input, the two
`time.Now()` samples become explicit integer (nanosecond) parameters,
and log calls are recorded as a list of structured log lines.
-/

namespace Tsrouter

/-- Constant `tailscaleAPIBase` from main.go. -/
def tailscaleAPIBase : String := "https://api.tailscale.com/api/v2"

/-- Constant `tailscaleAuthURL` from main.go (also the TokenURL in the oauth file). -/
def tailscaleAuthURL : String := "https://api.tailscale.com/api/v2/oauth/token"

/-- Constant `authKeyExpiryDays` from main.go. -/
def authKeyExpiryDays : Int := 14

/-- A JSON value, the shape `encoding/json` works with.  Numbers are
integers here: the only number this program serializes is `expirySeconds`,
a Go `int`. -/
inductive Json where
  | null : Json
  | bool (b : Bool) : Json
  | num (n : Int) : Json
  | str (s : String) : Json
  | arr (xs : List Json) : Json
  | obj (fields : List (String × Json)) : Json

mutual

/-- Rendering of a JSON value to its wire string, as `json.Marshal`
emits it: no whitespace, `{...}` for objects, `[...]` for arrays. -/
def Json.render : Json → String
  | .null => "null"
  | .bool true => "true"
  | .bool false => "false"
  | .num n => toString n
  | .str s => "\"" ++ s ++ "\""
  | .arr xs => "[" ++ Json.renderItems xs ++ "]"
  | .obj fs => "\x7b" ++ Json.renderFields fs ++ "\x7d"

/-- Comma-separated rendering of array items. -/
def Json.renderItems : List Json → String
  | [] => ""
  | [x] => Json.render x
  | x :: y :: xs => Json.render x ++ "," ++ Json.renderItems (y :: xs)

/-- Comma-separated rendering of object fields. -/
def Json.renderFields : List (String × Json) → String
  | [] => ""
  | [(k, v)] => "\"" ++ k ++ "\":" ++ Json.render v
  | (k, v) :: f :: fs =>
      "\"" ++ k ++ "\":" ++ Json.render v ++ "," ++ Json.renderFields (f :: fs)

end

/-- First field of an object field list with the given name, the
lookup `json.Unmarshal` effectively performs for struct fields. -/
def fieldGet (n : String) : List (String × Json) → Option Json
  | [] => none
  | (k, v) :: fs => if k = n then some v else fieldGet n fs

/-- Field access on a JSON value (objects only). -/
def Json.getF : Json → String → Option Json
  | .obj fs, n => fieldGet n fs
  | _, _ => none

/-- A calendar timestamp, the shape `time.Time` decodes from an
RFC 3339 string.  Fields: year, month, day, hour, minute, second. -/
structure Timestamp where
  y : Nat
  mo : Nat
  d : Nat
  h : Nat
  mi : Nat
  s : Nat
deriving DecidableEq

/-- The zero `time.Time` (January 1, year 1). -/
def zeroTime : Timestamp := ⟨1, 1, 1, 0, 0, 0⟩

/-- Two-digit decimal number. -/
def d2 (a b : Char) : Option Nat :=
  if a.isDigit && b.isDigit then some ((a.toNat - 48) * 10 + (b.toNat - 48)) else none

/-- Four-digit decimal number. -/
def d4 (a b c e : Char) : Option Nat :=
  if a.isDigit && b.isDigit && c.isDigit && e.isDigit then
    some (((a.toNat - 48) * 10 + (b.toNat - 48)) * 100 + ((c.toNat - 48) * 10 + (e.toNat - 48)))
  else none

/-- RFC 3339 timestamp parsing in the `YYYY-MM-DDTHH:MM:SSZ` form, the
format `time.Time.UnmarshalJSON` requires for the `created` and `expires`
fields (the UTC form used by the provider; other offset forms are not
needed by any claim and are treated as out of range here). -/
def parseRFC3339 (str : String) : Option Timestamp :=
  match str.data with
  | [y1, y2, y3, y4, '-', m1, m2, '-', dd1, dd2, 'T',
     h1, h2, ':', i1, i2, ':', s1, s2, 'Z'] =>
    match d4 y1 y2 y3 y4, d2 m1 m2, d2 dd1 dd2, d2 h1 h2, d2 i1 i2, d2 s1 s2 with
    | some y, some mo, some dy, some h, some mi, some s =>
      if 1 ≤ mo && mo ≤ 12 && 1 ≤ dy && dy ≤ 31 && h ≤ 23 && mi ≤ 59 && s ≤ 59 then
        some ⟨y, mo, dy, h, mi, s⟩
      else none
    | _, _, _, _, _, _ => none
  | _ => none

/-- Display form of a timestamp, for the `expires` log field. -/
def showTs (t : Timestamp) : String :=
  toString t.y ++ "-" ++ toString t.mo ++ "-" ++ toString t.d ++ " " ++
    toString t.h ++ ":" ++ toString t.mi ++ ":" ++ toString t.s

/-- The `TailscaleAuthKey` struct from main.go (json tags `id`, `key`,
`created`, `expires`, `ephemeral`). -/
structure TailscaleAuthKey where
  id : String
  key : String
  created : Timestamp
  expires : Timestamp
  ephemeral : Bool
deriving DecidableEq

/-- The zero value `var authKey TailscaleAuthKey` that `json.Unmarshal`
starts from. -/
def zeroAuthKey : TailscaleAuthKey := ⟨"", "", zeroTime, zeroTime, false⟩

/-- One decoding step of `json.Unmarshal` for a single object field into
the `TailscaleAuthKey` struct: a matching tag sets the struct field, a
JSON null or an unknown key leaves the struct untouched. -/
def upd (r : TailscaleAuthKey) (f : String × Json) : TailscaleAuthKey :=
  match f with
  | ("id", .str v) => { r with id := v }
  | ("key", .str v) => { r with key := v }
  | ("created", .str v) =>
      match parseRFC3339 v with
      | some t => { r with created := t }
      | none => r
  | ("expires", .str v) =>
      match parseRFC3339 v with
      | some t => { r with expires := t }
      | none => r
  | ("ephemeral", .bool b) => { r with ephemeral := b }
  | _ => r

/-- Whether `json.Unmarshal` accepts a single object field for the
`TailscaleAuthKey` struct: known tags need the matching JSON type (or
null), time fields need a parsable RFC 3339 string, unknown keys are
ignored. -/
def fieldOk : String × Json → Bool
  | ("id", .str _) => true
  | ("id", .null) => true
  | ("id", _) => false
  | ("key", .str _) => true
  | ("key", .null) => true
  | ("key", _) => false
  | ("created", .str v) => (parseRFC3339 v).isSome
  | ("created", .null) => true
  | ("created", _) => false
  | ("expires", .str v) => (parseRFC3339 v).isSome
  | ("expires", .null) => true
  | ("expires", _) => false
  | ("ephemeral", .bool _) => true
  | ("ephemeral", .null) => true
  | ("ephemeral", _) => false
  | (_, _) => true

/-- Streaming decode of an object's fields into the struct, stopping at
the first field `json.Unmarshal` rejects. -/
def decodeFields : TailscaleAuthKey → List (String × Json) → Except String TailscaleAuthKey
  | r, [] => .ok r
  | r, f :: fs =>
      if fieldOk f then decodeFields (upd r f) fs
      else .error ("json: cannot unmarshal value into field " ++ f.1)

/-- `json.Unmarshal` of a JSON value into `TailscaleAuthKey`: an object
is decoded field by field, a top-level null leaves the zero value, and
any other top-level value is a type error. -/
def decodeTop : Json → Except String TailscaleAuthKey
  | .obj fs => decodeFields zeroAuthKey fs
  | .null => .ok zeroAuthKey
  | _ => .error "json: cannot unmarshal value into Go value of type main.TailscaleAuthKey"

/-- The bytes read from a response body: either bytes that parse as a
JSON value, or bytes that are not well-formed JSON. -/
inductive Wire where
  | json (v : Json) : Wire
  | raw (s : String) : Wire

/-- The raw byte string of the body. -/
def Wire.bytes : Wire → String
  | .json v => v.render
  | .raw s => s

/-- `json.Unmarshal(bodyBytes, &authKey)`: a syntax error on bytes that
are not JSON, otherwise the struct decode. -/
def unmarshalAuthKey : Wire → Except String TailscaleAuthKey
  | .json v => decodeTop v
  | .raw _ => .error "invalid character looking for beginning of value"

/-- An outgoing HTTP request as built by `generateAuthKey`. -/
structure HttpRequest where
  method : String
  url : String
  headers : List (String × String)
  body : String
deriving DecidableEq

/-- Log verbosity levels of `setupLogging` (logrus numeric order:
error 2, info 4, debug 5). -/
inductive LogLevel where
  | error : LogLevel
  | info : LogLevel
  | debug : LogLevel
deriving DecidableEq

/-- The logrus numeric value of a level. -/
def LogLevel.num : LogLevel → Nat
  | .error => 2
  | .info => 4
  | .debug => 5

/-- logrus shows an entry iff its level number is at most the configured
level's number. -/
def shownAt (set entry : LogLevel) : Bool := entry.num ≤ set.num

/-- One emitted log line: either a logrus entry (filtered by level) or a
standard-library `log.Println` line (always printed). -/
structure LogLine where
  viaLogrus : Bool
  level : LogLevel
  msg : String
  fields : List (String × String)
deriving DecidableEq

/-- Whether a log line is actually emitted at configured verbosity `v`. -/
def emittedAt (v : LogLevel) (l : LogLine) : Bool :=
  !l.viaLogrus || shownAt v l.level

/-- The errors `generateAuthKey` can return, by return site:
`sendFailed` is the transport failure (the spec's NetworkError),
`httpStatus` the non-200 failure (the spec's ProvisioningError, carrying
status and raw body), `decodeFailed` the JSON failure (the spec's
DecodeError). -/
inductive GenError where
  | sendFailed (cause : String) : GenError
  | httpStatus (status : Nat) (body : String) : GenError
  | decodeFailed (cause : String) : GenError
deriving DecidableEq

/-- The `fmt.Errorf` message of each error, exactly as main.go formats it. -/
def GenError.message : GenError → String
  | .sendFailed c => "failed to send auth key request: " ++ c
  | .httpStatus s b => "failed to generate auth key: HTTP " ++ toString s ++ " - " ++ b
  | .decodeFailed c => "failed to decode auth key response: " ++ c

/-- The world's answer to the single `client.Do(req)` call: a transport
error, or a response with a status code, the bytes `io.ReadAll` managed
to read, and the read error `io.ReadAll` reported (if any). -/
inductive DoResult where
  | transportError (cause : String) : DoResult
  | ok (status : Nat) (wire : Wire) (readErr : Option String) : DoResult

/-- Everything observable about one `generateAuthKey` run: the returned
value or error, the HTTP requests issued, and the log lines produced. -/
structure GenOutcome where
  result : Except GenError TailscaleAuthKey
  requests : List HttpRequest
  logs : List LogLine

/-- `expiry := time.Now().Add(authKeyExpiryDays * 24 * time.Hour)`,
in nanoseconds, from the first `time.Now()` sample. -/
def expirySnapshotNs (now1 : Int) : Int :=
  now1 + authKeyExpiryDays * 24 * 3600 * 1000000000

/-- `int(expiry.Sub(time.Now()).Seconds())`: the duration from the
SECOND `time.Now()` sample to the expiry, truncated to whole seconds
(Go's `int(...)` truncates toward zero). -/
def expirySecondsOf (now1 now2 : Int) : Int :=
  Int.tdiv (expirySnapshotNs now1 - now2) 1000000000

/-- The `create` capability descriptor of the request body, with the
fields main.go puts in it (in `json.Marshal`'s sorted-key order). -/
def createDescriptor : List (String × Json) :=
  [("ephemeral", .bool true),
   ("preauthorized", .bool true),
   ("reusable", .bool false),
   ("tags", .arr [.str "tag:server"])]

/-- The full `reqBody` map of `generateAuthKey`, as a JSON value
(keys in `json.Marshal`'s sorted order). -/
def authKeyReqJson (expirySeconds : Int) : Json :=
  .obj [("capabilities", .obj [("devices", .obj [("create", .obj createDescriptor)])]),
        ("expirySeconds", .num expirySeconds)]

/-- `generateAuthKey` from main.go, over the interface model: `tailnet`
is the argument, `now1`/`now2` are the two `time.Now()` samples (in
nanoseconds), and `doRes` is the transport's answer to the single
`client.Do` call.  `json.Marshal` of this fixed-shape map cannot fail
and `http.NewRequestWithContext` succeeds for these URLs, so those two
error branches of the source are dead here. -/
def generateAuthKey (tailnet : String) (now1 now2 : Int) (doRes : DoResult) : GenOutcome :=
  let endpoint := tailscaleAPIBase ++ "/tailnet/" ++ tailnet ++ "/keys"
  let log1 : LogLine := ⟨true, .debug, "Generating new auth key", [("endpoint", endpoint)]⟩
  let es := expirySecondsOf now1 now2
  let jsonBody := Json.render (authKeyReqJson es)
  let log2 : LogLine := ⟨true, .debug, "Sending auth key request",
    [("endpoint", endpoint), ("body", jsonBody)]⟩
  let req : HttpRequest := ⟨"POST", endpoint, [("Content-Type", "application/json")], jsonBody⟩
  match doRes with
  | .transportError cause =>
      ⟨.error (.sendFailed cause), [req], [log1, log2]⟩
  | .ok status wire _readErr =>
      let bodyBytes := wire.bytes
      if status ≠ 200 then
        let log3 : LogLine := ⟨true, .debug, "Auth key request failed",
          [("status_code", toString status), ("endpoint", endpoint), ("response", bodyBytes)]⟩
        ⟨.error (.httpStatus status bodyBytes), [req], [log1, log2, log3]⟩
      else
        match unmarshalAuthKey wire with
        | .error m => ⟨.error (.decodeFailed m), [req], [log1, log2]⟩
        | .ok authKey =>
            let log4 : LogLine := ⟨true, .debug, "Generated new auth key",
              [("key_id", authKey.id), ("expires", showTs authKey.expires),
               ("endpoint", endpoint), ("response", bodyBytes)]⟩
            ⟨.ok authKey, [req], [log1, log2, log4]⟩

/-- The environment the oauth file reads. -/
structure Env where
  tsClientId : String
  tsClientSecret : String
  tsTailnet : String
  dotenvFound : Bool

/-- The `clientcredentials.Config`-backed client value: it only stores
the credentials and token URL; no token is fetched at construction. -/
structure OAuthClientConfig where
  clientID : String
  clientSecret : String
  tokenURL : String
deriving DecidableEq

/-- Everything observable about one `GetAccessToken` run. -/
structure TokenOutcome where
  client : OAuthClientConfig
  err : Option String
  requests : List HttpRequest
  logs : List LogLine
  tailnetResolved : String

/-- The fixed `log.Println` message of the oauth file. -/
def noEnvFoundMsg : String := "No .env file found, using system environment variables."

/-- `GetAccessToken` from the oauth file: loads `.env` (logging a plain
`log.Println` line when absent), reads the credentials, resolves the
tailnet default `example` (a value the function then never uses), builds
the `clientcredentials.Config` and returns `oauthConfig.Client(...)`
with a nil error.  Construction performs no HTTP request; token
acquisition by the oauth2 client is lazy. -/
def GetAccessToken (env : Env) : TokenOutcome :=
  let logs : List LogLine :=
    if env.dotenvFound then [] else [⟨false, .info, noEnvFoundMsg, []⟩]
  let tailnet := if env.tsTailnet = "" then "example" else env.tsTailnet
  { client := ⟨env.tsClientId, env.tsClientSecret, tailscaleAuthURL⟩
    err := none
    requests := []
    logs := logs
    tailnetResolved := tailnet }

/-- Does `needle` start `hay`? -/
def listStarts : List Char → List Char → Bool
  | _, [] => true
  | [], _ :: _ => false
  | a :: as, b :: bs => a == b && listStarts as bs

/-- Does `needle` occur somewhere in `hay`? -/
def listHas (hay needle : List Char) : Bool :=
  match hay with
  | [] => needle.isEmpty
  | _ :: rest => listStarts hay needle || listHas rest needle

/-- Substring occurrence on strings. -/
def occursIn (needle hay : String) : Bool := listHas hay.data needle.data

/-- Does a log line contain the given string, in its message or in any
interpolated field name or value? -/
def mentions (needle : String) (l : LogLine) : Bool :=
  occursIn needle l.msg || l.fields.any (fun kv => occursIn needle kv.1 || occursIn needle kv.2)

/-- The key the run returned, if any. -/
def issuedKey (o : GenOutcome) : Option String :=
  match o.result with
  | .ok r => some r.key
  | .error _ => none

/-- All log lines of a token-exchange-then-provision run. -/
def allEmissions (env : Env) (t : String) (n1 n2 : Int) (doRes : DoResult) : List LogLine :=
  (GetAccessToken env).logs ++ (generateAuthKey t n1 n2 doRes).logs

/-- Recognizer for the transport-failure error (the spec's NetworkError). -/
def isSendFailed : Except GenError TailscaleAuthKey → Bool
  | .error (.sendFailed _) => true
  | _ => false

/-! ### Helper lemmas about the decode step -/

theorem decodeFields_all_ok (fs : List (String × Json)) : ∀ r : TailscaleAuthKey,
    fs.all fieldOk = true → decodeFields r fs = .ok (fs.foldl upd r) := by
  induction fs with
  | nil => intro r _; rfl
  | cons f fs ih =>
    intro r h
    simp only [List.all_cons, Bool.and_eq_true] at h
    simp only [decodeFields, List.foldl_cons, if_pos h.1]
    exact ih (upd r f) h.2

theorem upd_key_of_ne (r : TailscaleAuthKey) (f : String × Json) (h : f.1 ≠ "key") :
    (upd r f).key = r.key := by
  obtain ⟨n, j⟩ := f
  unfold upd
  split <;> simp_all <;> split <;> rfl

theorem upd_id_of_ne (r : TailscaleAuthKey) (f : String × Json) (h : f.1 ≠ "id") :
    (upd r f).id = r.id := by
  obtain ⟨n, j⟩ := f
  unfold upd
  split <;> simp_all <;> split <;> rfl

theorem upd_eph_of_ne (r : TailscaleAuthKey) (f : String × Json) (h : f.1 ≠ "ephemeral") :
    (upd r f).ephemeral = r.ephemeral := by
  obtain ⟨n, j⟩ := f
  unfold upd
  split <;> simp_all <;> split <;> rfl

theorem foldl_key_of_not_mem (fs : List (String × Json)) : ∀ r : TailscaleAuthKey,
    "key" ∉ fs.map Prod.fst → (fs.foldl upd r).key = r.key := by
  induction fs with
  | nil => intro r _; rfl
  | cons f fs ih =>
    intro r h
    simp only [List.map_cons, List.mem_cons, not_or] at h
    simp only [List.foldl_cons]
    rw [ih _ h.2, upd_key_of_ne r f (Ne.symm h.1)]

theorem foldl_id_of_not_mem (fs : List (String × Json)) : ∀ r : TailscaleAuthKey,
    "id" ∉ fs.map Prod.fst → (fs.foldl upd r).id = r.id := by
  induction fs with
  | nil => intro r _; rfl
  | cons f fs ih =>
    intro r h
    simp only [List.map_cons, List.mem_cons, not_or] at h
    simp only [List.foldl_cons]
    rw [ih _ h.2, upd_id_of_ne r f (Ne.symm h.1)]

theorem foldl_eph_of_not_mem (fs : List (String × Json)) : ∀ r : TailscaleAuthKey,
    "ephemeral" ∉ fs.map Prod.fst → (fs.foldl upd r).ephemeral = r.ephemeral := by
  induction fs with
  | nil => intro r _; rfl
  | cons f fs ih =>
    intro r h
    simp only [List.map_cons, List.mem_cons, not_or] at h
    simp only [List.foldl_cons]
    rw [ih _ h.2, upd_eph_of_ne r f (Ne.symm h.1)]

theorem foldl_key_of_get (fs : List (String × Json)) : ∀ (r : TailscaleAuthKey) (k : String),
    (fs.map Prod.fst).Nodup → fieldGet "key" fs = some (.str k) →
    (fs.foldl upd r).key = k := by
  induction fs with
  | nil => intro r k _ h; simp [fieldGet] at h
  | cons f fs ih =>
    intro r k hnd hget
    obtain ⟨n, j⟩ := f
    simp only [List.map_cons, List.nodup_cons] at hnd
    by_cases hn : n = "key"
    · subst hn
      rw [fieldGet, if_pos rfl] at hget
      cases hget
      simp only [List.foldl_cons]
      rw [foldl_key_of_not_mem fs _ hnd.1]
      rfl
    · rw [fieldGet, if_neg hn] at hget
      simp only [List.foldl_cons]
      exact ih _ _ hnd.2 hget

theorem foldl_id_of_get (fs : List (String × Json)) : ∀ (r : TailscaleAuthKey) (i : String),
    (fs.map Prod.fst).Nodup → fieldGet "id" fs = some (.str i) →
    (fs.foldl upd r).id = i := by
  induction fs with
  | nil => intro r i _ h; simp [fieldGet] at h
  | cons f fs ih =>
    intro r i hnd hget
    obtain ⟨n, j⟩ := f
    simp only [List.map_cons, List.nodup_cons] at hnd
    by_cases hn : n = "id"
    · subst hn
      rw [fieldGet, if_pos rfl] at hget
      cases hget
      simp only [List.foldl_cons]
      rw [foldl_id_of_not_mem fs _ hnd.1]
      rfl
    · rw [fieldGet, if_neg hn] at hget
      simp only [List.foldl_cons]
      exact ih _ _ hnd.2 hget

theorem foldl_eph_of_get (fs : List (String × Json)) : ∀ (r : TailscaleAuthKey) (b : Bool),
    (fs.map Prod.fst).Nodup → fieldGet "ephemeral" fs = some (.bool b) →
    (fs.foldl upd r).ephemeral = b := by
  induction fs with
  | nil => intro r b _ h; simp [fieldGet] at h
  | cons f fs ih =>
    intro r b hnd hget
    obtain ⟨n, j⟩ := f
    simp only [List.map_cons, List.nodup_cons] at hnd
    by_cases hn : n = "ephemeral"
    · subst hn
      rw [fieldGet, if_pos rfl] at hget
      cases hget
      simp only [List.foldl_cons]
      rw [foldl_eph_of_not_mem fs _ hnd.1]
      rfl
    · rw [fieldGet, if_neg hn] at hget
      simp only [List.foldl_cons]
      exact ih _ _ hnd.2 hget

theorem genAuthKey_logs_debug (t : String) (n1 n2 : Int) (doRes : DoResult) :
    ∀ l ∈ (generateAuthKey t n1 n2 doRes).logs, l.viaLogrus = true ∧ l.level = .debug := by
  intro l hl
  rcases doRes with c | ⟨s, w, re⟩
  · simp only [generateAuthKey, List.mem_cons, List.not_mem_nil, or_false] at hl
    rcases hl with rfl | rfl <;> exact ⟨rfl, rfl⟩
  · by_cases h : s = 200
    · subst h
      rcases hm : unmarshalAuthKey w with m | rec <;>
        simp only [generateAuthKey, hm, ne_eq, not_true_eq_false, if_false, ite_false,
          reduceIte, List.mem_cons, List.not_mem_nil, or_false] at hl <;>
      · rcases hl with rfl | rfl | rfl <;> exact ⟨rfl, rfl⟩
    · simp only [generateAuthKey, if_pos h, List.mem_cons, List.not_mem_nil, or_false] at hl
      rcases hl with rfl | rfl | rfl <;> exact ⟨rfl, rfl⟩

/-! ### Claim theorems -/

/-- C1: for every response to the key-creation POST whose status is not
200, `generateAuthKey` returns no record and fails with the
ProvisioningError-style error carrying the exact status code and the raw
response body ("failed to generate auth key: HTTP status - body"), and
it issues exactly one request (no retry). -/
theorem genAuthKey_non200 (t : String) (n1 n2 : Int) (status : Nat) (wire : Wire)
    (re : Option String) (h : status ≠ 200) :
    (generateAuthKey t n1 n2 (.ok status wire re)).result
        = .error (.httpStatus status wire.bytes) ∧
    issuedKey (generateAuthKey t n1 n2 (.ok status wire re)) = none ∧
    (generateAuthKey t n1 n2 (.ok status wire re)).requests.length = 1 ∧
    GenError.message (.httpStatus status wire.bytes)
        = "failed to generate auth key: HTTP " ++ toString status ++ " - " ++ wire.bytes := by
  refine ⟨?_, ?_, ?_, rfl⟩ <;> simp [generateAuthKey, issuedKey, h]

/-- C1 witness: the 403 response with body containing "invalid tags". -/
theorem genAuthKey_non200_witness :
    (generateAuthKey "example" 0 0
        (.ok 403 (.json (.obj [("message", .str "invalid tags")])) none)).result
        = .error (.httpStatus 403 (Wire.json (.obj [("message", .str "invalid tags")])).bytes) ∧
    issuedKey (generateAuthKey "example" 0 0
        (.ok 403 (.json (.obj [("message", .str "invalid tags")])) none)) = none ∧
    (generateAuthKey "example" 0 0
        (.ok 403 (.json (.obj [("message", .str "invalid tags")])) none)).requests.length = 1 ∧
    GenError.message (.httpStatus 403 (Wire.json (.obj [("message", .str "invalid tags")])).bytes)
        = "failed to generate auth key: HTTP " ++ toString 403
            ++ " - " ++ (Wire.json (.obj [("message", .str "invalid tags")])).bytes :=
  genAuthKey_non200 "example" 0 0 403 (.json (.obj [("message", .str "invalid tags")])) none
    (by decide)

/-- C2: for every 200 response whose body is a well-formed JSON object
carrying id, key, created, expires and ephemeral fields of the right
types (keys not duplicated), `generateAuthKey` returns a record whose
key, id and ephemeral fields equal those of the response body. -/
theorem genAuthKey_success_fields (t : String) (n1 n2 : Int) (fs : List (String × Json))
    (re : Option String) (i k c e : String) (b : Bool)
    (hnd : (fs.map Prod.fst).Nodup)
    (hok : fs.all fieldOk = true)
    (hid : fieldGet "id" fs = some (.str i))
    (hkey : fieldGet "key" fs = some (.str k))
    (_hc : fieldGet "created" fs = some (.str c))
    (_he : fieldGet "expires" fs = some (.str e))
    (heph : fieldGet "ephemeral" fs = some (.bool b)) :
    ∃ rec, (generateAuthKey t n1 n2 (.ok 200 (.json (.obj fs)) re)).result = .ok rec ∧
      rec.key = k ∧ rec.id = i ∧ rec.ephemeral = b := by
  have hdec : unmarshalAuthKey (.json (.obj fs)) = .ok (fs.foldl upd zeroAuthKey) := by
    simp [unmarshalAuthKey, decodeTop, decodeFields_all_ok fs zeroAuthKey hok]
  refine ⟨fs.foldl upd zeroAuthKey, ?_, ?_, ?_, ?_⟩
  · simp [generateAuthKey, hdec]
  · exact foldl_key_of_get fs _ _ hnd hkey
  · exact foldl_id_of_get fs _ _ hnd hid
  · exact foldl_eph_of_get fs _ _ hnd heph

/-- C2 witness: the end-to-end scenario body, id "k1", key
"tskey-abc123", ephemeral true. -/
theorem genAuthKey_success_fields_witness :
    ∃ rec, (generateAuthKey "example" 0 0 (.ok 200 (.json (.obj
        [("id", .str "k1"), ("key", .str "tskey-abc123"),
         ("created", .str "2024-01-01T00:00:00Z"),
         ("expires", .str "2024-01-15T00:00:00Z"),
         ("ephemeral", .bool true)])) none)).result = .ok rec ∧
      rec.key = "tskey-abc123" ∧ rec.id = "k1" ∧ rec.ephemeral = true :=
  genAuthKey_success_fields "example" 0 0
    [("id", .str "k1"), ("key", .str "tskey-abc123"),
     ("created", .str "2024-01-01T00:00:00Z"),
     ("expires", .str "2024-01-15T00:00:00Z"),
     ("ephemeral", .bool true)] none
    "k1" "tskey-abc123" "2024-01-01T00:00:00Z" "2024-01-15T00:00:00Z" true
    (by decide) (by decide) rfl rfl rfl rfl rfl

/-- C3: for every tailnet, the (single) request issued is a POST to
{apiBase}/tailnet/{tailnet}/keys with Content-Type application/json, and
the capability descriptor of its JSON body has reusable=false,
ephemeral=true, preauthorized=true and tags=["tag:server"]. -/
theorem genAuthKey_request_shape (t : String) (n1 n2 : Int) (doRes : DoResult) :
    (generateAuthKey t n1 n2 doRes).requests
      = [⟨"POST", tailscaleAPIBase ++ "/tailnet/" ++ t ++ "/keys",
          [("Content-Type", "application/json")],
          Json.render (authKeyReqJson (expirySecondsOf n1 n2))⟩] ∧
    (authKeyReqJson (expirySecondsOf n1 n2)).getF "capabilities"
        = some (.obj [("devices", .obj [("create", .obj createDescriptor)])]) ∧
    fieldGet "reusable" createDescriptor = some (.bool false) ∧
    fieldGet "ephemeral" createDescriptor = some (.bool true) ∧
    fieldGet "preauthorized" createDescriptor = some (.bool true) ∧
    fieldGet "tags" createDescriptor = some (.arr [.str "tag:server"]) := by
  refine ⟨?_, rfl, rfl, rfl, rfl, rfl⟩
  rcases doRes with c | ⟨s, w, re⟩
  · rfl
  · by_cases h : s = 200
    · subst h
      rcases hm : unmarshalAuthKey w with m | rec <;> simp [generateAuthKey, hm]
    · simp [generateAuthKey, h]

/-- C4: under drift of less than one second between the two time
samples, the serialized expirySeconds is strictly positive, is either
1209599 or 1209600, and equals the nanosecond difference between the
computed expiry and the send-time sample to within one second
(truncation bounds). -/
theorem expirySeconds_tolerance (n1 n2 : Int) (h1 : n1 ≤ n2) (h2 : n2 - n1 < 1000000000) :
    0 < expirySecondsOf n1 n2 ∧
    1209599 ≤ expirySecondsOf n1 n2 ∧
    expirySecondsOf n1 n2 ≤ 1209600 ∧
    expirySecondsOf n1 n2 * 1000000000 ≤ expirySnapshotNs n1 - n2 ∧
    expirySnapshotNs n1 - n2 < (expirySecondsOf n1 n2 + 1) * 1000000000 := by
  have hnn : 0 ≤ expirySnapshotNs n1 - n2 := by
    simp only [expirySnapshotNs, authKeyExpiryDays]
    omega
  unfold expirySecondsOf
  rw [Int.tdiv_eq_ediv hnn (by norm_num)]
  simp only [expirySnapshotNs, authKeyExpiryDays] at *
  omega

/-- C4 witness: samples 0 and 0.5 seconds. -/
theorem expirySeconds_tolerance_witness :
    0 < expirySecondsOf 0 500000000 ∧
    1209599 ≤ expirySecondsOf 0 500000000 ∧
    expirySecondsOf 0 500000000 ≤ 1209600 ∧
    expirySecondsOf 0 500000000 * 1000000000 ≤ expirySnapshotNs 0 - 500000000 ∧
    expirySnapshotNs 0 - 500000000 < (expirySecondsOf 0 500000000 + 1) * 1000000000 :=
  expirySeconds_tolerance 0 500000000 (by decide) (by decide)

/-- C5: for every 200 response whose body does not unmarshal into
`TailscaleAuthKey`, `generateAuthKey` fails with the DecodeError-style
error wrapping the parse error and returns no record at all. -/
theorem genAuthKey_decode_failure (t : String) (n1 n2 : Int) (wire : Wire)
    (re : Option String) (m : String) (h : unmarshalAuthKey wire = .error m) :
    (generateAuthKey t n1 n2 (.ok 200 wire re)).result = .error (.decodeFailed m) ∧
    issuedKey (generateAuthKey t n1 n2 (.ok 200 wire re)) = none ∧
    GenError.message (.decodeFailed m) = "failed to decode auth key response: " ++ m := by
  refine ⟨?_, ?_, rfl⟩ <;> simp [generateAuthKey, issuedKey, h]

/-- C5 witness: a body that is not valid JSON. -/
theorem genAuthKey_decode_failure_witness :
    (generateAuthKey "example" 0 0 (.ok 200 (.raw "not json") none)).result
        = .error (.decodeFailed "invalid character looking for beginning of value") ∧
    issuedKey (generateAuthKey "example" 0 0 (.ok 200 (.raw "not json") none)) = none ∧
    GenError.message (.decodeFailed "invalid character looking for beginning of value")
        = "failed to decode auth key response: "
            ++ "invalid character looking for beginning of value" :=
  genAuthKey_decode_failure "example" 0 0 (.raw "not json") none
    "invalid character looking for beginning of value" rfl

/-- C6: evaluating the code at a concrete two-second drift between the
two `time.Now()` samples shows the serialized expirySeconds follows the
SECOND sample (1209598, not the single-snapshot value 1209600): the
current time is sampled again when expirySeconds is computed. -/
theorem expirySeconds_uses_second_sample :
    expirySecondsOf 0 (2 * 1000000000) = 1209598 ∧ expirySecondsOf 0 0 = 1209600 := by
  constructor <;> decide

/-- C7: evaluating the code at the empty tailnet shows no fail-fast
happens: `generateAuthKey` still issues one POST, to the malformed path
".../tailnet//keys". -/
theorem genAuthKey_empty_tailnet_sends :
    (generateAuthKey "" 0 0 (.ok 200 (.raw "resp") none)).requests
      = [⟨"POST", "https://api.tailscale.com/api/v2/tailnet//keys",
          [("Content-Type", "application/json")],
          Json.render (authKeyReqJson 1209600)⟩] ∧
    (generateAuthKey "" 0 0 (.ok 200 (.raw "resp") none)).requests.length = 1 := by
  constructor <;> decide

/-- C8: for every environment, including empty client ID or secret,
`GetAccessToken` returns a client wrapping exactly the given credentials
and the fixed token URL, together with a nil error, and performs no
network request at construction time. -/
theorem getAccessToken_lazy (env : Env) :
    (GetAccessToken env).err = none ∧
    (GetAccessToken env).requests = [] ∧
    (GetAccessToken env).client = ⟨env.tsClientId, env.tsClientSecret, tailscaleAuthURL⟩ :=
  ⟨rfl, rfl, rfl⟩

/-- C9: at every verbosity below debug, no log line emitted by
`GetAccessToken` or `generateAuthKey` contains the client secret or the
issued key (assuming neither happens to occur in the one fixed
level-independent message, which interpolates nothing). -/
theorem logs_below_debug_no_secrets (env : Env) (t : String) (n1 n2 : Int)
    (doRes : DoResult) (v : LogLevel) (hv : v ≠ LogLevel.debug)
    (h1 : occursIn env.tsClientSecret noEnvFoundMsg = false)
    (h2 : (issuedKey (generateAuthKey t n1 n2 doRes)).any
            (fun k => occursIn k noEnvFoundMsg) = false) :
    ∀ l ∈ allEmissions env t n1 n2 doRes, emittedAt v l = true →
      (mentions env.tsClientSecret l
        || (issuedKey (generateAuthKey t n1 n2 doRes)).any (fun k => mentions k l)) = false := by
  intro l hl hemit
  rcases List.mem_append.mp hl with hstd | hgen
  · have hline : l = ⟨false, .info, noEnvFoundMsg, []⟩ := by
      by_cases hd : env.dotenvFound <;> simp [GetAccessToken, hd] at hstd
      exact hstd
    subst hline
    rcases hik : issuedKey (generateAuthKey t n1 n2 doRes) with _ | k
    · simp [mentions, h1, hik]
    · rw [hik] at h2
      simp only [Option.any_some] at h2
      simp [mentions, h1, hik, h2]
  · exfalso
    have hld := genAuthKey_logs_debug t n1 n2 doRes l hgen
    rw [emittedAt, hld.1, hld.2] at hemit
    cases v with
    | debug => exact hv rfl
    | error => simp [shownAt, LogLevel.num] at hemit
    | info => simp [shownAt, LogLevel.num] at hemit

/-- C9 witness: the end-to-end run at error verbosity; the only emitted
line is the fixed dotenv message, which mentions neither the secret
"xyz" nor the issued key. -/
theorem logs_below_debug_no_secrets_witness :
    (mentions (Env.tsClientSecret ⟨"abc", "xyz", "example", false⟩)
        ⟨false, .info, noEnvFoundMsg, []⟩
      || (issuedKey (generateAuthKey "example" 0 0 (.ok 200 (.json (.obj
            [("id", .str "k1"), ("key", .str "tskey-abc123"),
             ("created", .str "2024-01-01T00:00:00Z"),
             ("expires", .str "2024-01-15T00:00:00Z"),
             ("ephemeral", .bool true)])) none))).any
           (fun k => mentions k ⟨false, .info, noEnvFoundMsg, []⟩)) = false :=
  logs_below_debug_no_secrets ⟨"abc", "xyz", "example", false⟩ "example" 0 0
    (.ok 200 (.json (.obj
      [("id", .str "k1"), ("key", .str "tskey-abc123"),
       ("created", .str "2024-01-01T00:00:00Z"),
       ("expires", .str "2024-01-15T00:00:00Z"),
       ("ephemeral", .bool true)])) none)
    .error (by decide) (by decide) (by decide)
    ⟨false, .info, noEnvFoundMsg, []⟩ (by decide) (by decide)

/-- C10: on a 200 response, `generateAuthKey` ignores the body-read
error entirely (its outcome is identical with or without one, so the
partial bytes are decoded as read), and the result is never the
transport-level failure. -/
theorem genAuthKey_read_error_discarded (t : String) (n1 n2 : Int) (wire : Wire) (e : String) :
    generateAuthKey t n1 n2 (.ok 200 wire (some e)) = generateAuthKey t n1 n2 (.ok 200 wire none) ∧
    isSendFailed (generateAuthKey t n1 n2 (.ok 200 wire (some e))).result = false := by
  constructor
  · rfl
  · rcases hm : unmarshalAuthKey wire with m | rec <;> simp [generateAuthKey, isSendFailed, hm]

end Tsrouter
